import Mathlib

/-!
Shallow embedding of the CTRG grant-proposal review workflow
(`backend/proposals/services.py`, `backend/proposals/models.py`,
`backend/reviews/models.py`, `backend/reviews/serializers.py`,
`backend/reviews/views.py`) and proofs about its proposal lifecycle
state machine, score aggregation and reviewer workload validation.

Modelling conventions:
- timestamps are integer seconds (`Time := Nat`); `timedelta(days=d)` is
  `daysToSeconds d = d * 86400`;
- Django model instances become structures; the related tables an
  operation touches (assignments, scores, reviews, decisions, reviewer
  profiles) live in a `Db` record, while the focal `Proposal` instance is
  passed and returned explicitly, as the Python services do;
- `ValueError` and the database `IntegrityError` raised by a violated
  one-to-one constraint become the `Err` sum type; audit-log writes and
  e-mail sends are external side effects outside the model;
- decimal fields (`average_score`, amounts, thresholds) are modelled as
  `Rat`, the exact value before storage quantisation.
-/

namespace CTRG

/-- Timestamps in integer seconds. -/
abbrev Time := Nat

/-- `timedelta(days=d)` in seconds. -/
def daysToSeconds (d : Nat) : Nat := d * 86400

/-- `Proposal.Status` from `proposals/models.py`. -/
inductive PStatus
  | DRAFT
  | SUBMITTED
  | UNDER_STAGE_1_REVIEW
  | STAGE_1_REJECTED
  | ACCEPTED_NO_CORRECTIONS
  | TENTATIVELY_ACCEPTED
  | REVISION_REQUESTED
  | REVISED_PROPOSAL_SUBMITTED
  | REVISION_DEADLINE_MISSED
  | UNDER_STAGE_2_REVIEW
  | FINAL_ACCEPTED
  | FINAL_REJECTED
deriving DecidableEq, Repr

/-- `GrantCycle` configuration fields consumed by the services. -/
structure GrantCycle where
  revision_window_days : Nat
  acceptance_threshold : Rat
  max_reviewers_per_proposal : Nat
deriving DecidableEq, Repr

/-- `Proposal` fields the lifecycle services read or write.  File
references are opaque identifiers. -/
structure Proposal where
  id : Nat
  status : PStatus
  submitted_at : Option Time
  revision_deadline : Option Time
  is_locked : Bool
  cycle : GrantCycle
  revised_proposal_file : Option Nat
  response_to_reviewers_file : Option Nat
deriving DecidableEq, Repr

/-- `ReviewAssignment.Status`. -/
inductive AStatus
  | PENDING
  | COMPLETED
deriving DecidableEq, Repr

/-- `ReviewAssignment` from `reviews/models.py` (stage is 1 or 2). -/
structure ReviewAssignment where
  id : Nat
  proposalId : Nat
  reviewerId : Nat
  stage : Nat
  status : AStatus
  deadline : Time
deriving DecidableEq, Repr

/-- `Stage1Score`: the eight criterion fields, draft flag, and comments. -/
structure Stage1Score where
  assignmentId : Nat
  originality_score : Int
  clarity_score : Int
  literature_review_score : Int
  methodology_score : Int
  impact_score : Int
  publication_potential_score : Int
  budget_appropriateness_score : Int
  timeline_practicality_score : Int
  narrative_comments : String
  is_draft : Bool
deriving DecidableEq, Repr

/-- `Stage1Score.total_score`: the derived sum of the eight criteria
(a `@property` in the source, never stored). -/
def Stage1Score.total_score (s : Stage1Score) : Int :=
  s.originality_score +
  s.clarity_score +
  s.literature_review_score +
  s.methodology_score +
  s.impact_score +
  s.publication_potential_score +
  s.budget_appropriateness_score +
  s.timeline_practicality_score

/-- `Stage2Review.ConcernsAddressed`. -/
inductive Concerns
  | YES
  | PARTIALLY
  | NO
deriving DecidableEq, Repr

/-- `Stage2Review.RevisedRecommendation`. -/
inductive RecChoice
  | ACCEPT
  | REJECT
deriving DecidableEq, Repr

/-- `Stage2Review` from `reviews/models.py`. -/
structure Stage2Review where
  assignmentId : Nat
  concerns_addressed : Concerns
  revised_recommendation : RecChoice
  revised_score : Option Int
  comments : String
  is_draft : Bool
deriving DecidableEq, Repr

/-- `Stage1Decision.Decision`. -/
inductive S1Choice
  | REJECT
  | ACCEPT
  | TENTATIVELY_ACCEPT
deriving DecidableEq, Repr

/-- `Stage1Decision`: one-to-one with `Proposal`. -/
structure Stage1Decision where
  proposalId : Nat
  decision : S1Choice
  chair_comments : String
  average_score : Rat
deriving DecidableEq, Repr

/-- `FinalDecision.Decision`. -/
inductive FChoice
  | ACCEPTED
  | REJECTED
deriving DecidableEq, Repr

/-- `FinalDecision`: one-to-one with `Proposal`. -/
structure FinalDecision where
  proposalId : Nat
  decision : FChoice
  approved_grant_amount : Rat
  final_remarks : String
deriving DecidableEq, Repr

/-- `ReviewerProfile` fields used by the workload tracker. -/
structure ReviewerProfile where
  userId : Nat
  max_review_load : Nat
  is_active_reviewer : Bool
deriving DecidableEq, Repr

/-- The persistence state an operation can touch, apart from the focal
proposal row itself: all related tables, plus a fresh-id counter for
assignments. -/
structure Db where
  assignments : List ReviewAssignment
  stage1_scores : List Stage1Score
  stage2_reviews : List Stage2Review
  stage1_decisions : List Stage1Decision
  final_decisions : List FinalDecision
  profiles : List ReviewerProfile
  nextAssignmentId : Nat
deriving DecidableEq, Repr

/-- Error outcomes: `ValueError(msg)` raised by the services, and the
database `IntegrityError` raised when a one-to-one constraint is
violated by a `create`. -/
inductive Err
  | valueError (msg : String)
  | integrityError
deriving DecidableEq, Repr

/-- Whether an `Except` result is a success. -/
def exceptIsOk {α : Type} : Except Err α → Bool
  | Except.ok _ => true
  | Except.error _ => false

/-- `ReviewAssignment.objects.filter(proposal=p, stage=s)`. -/
def stageAssignments (db : Db) (pid stage : Nat) : List ReviewAssignment :=
  db.assignments.filter (fun a => decide (a.proposalId = pid ∧ a.stage = stage))

/-- `assignment.stage1_score` (the reverse one-to-one lookup, raising
`Stage1Score.DoesNotExist` as `none`). -/
def findStage1Score (db : Db) (aid : Nat) : Option Stage1Score :=
  db.stage1_scores.find? (fun s => decide (s.assignmentId = aid))

/-- The score-collection loop inside `check_stage1_completion`: walks the
assignments, fetching each attached `Stage1Score`; the first missing
score aborts with `none` (the `except Stage1Score.DoesNotExist` path). -/
def collectTotals (db : Db) : List ReviewAssignment → Option (List Int)
  | [] => some []
  | a :: rest =>
    match findStage1Score db a.id with
    | none => none
    | some s =>
      match collectTotals db rest with
      | none => none
      | some ts => some (s.total_score :: ts)

/-- `ProposalService.check_stage1_completion`: `None` when no stage-1
assignments exist, when one of them is not COMPLETED, or when a score is
missing; otherwise the average of the per-reviewer totals. -/
def check_stage1_completion (db : Db) (p : Proposal) : Option Rat :=
  let assignments := stageAssignments db p.id 1
  if assignments.isEmpty then none
  else if assignments.all (fun a => decide (a.status = AStatus.COMPLETED)) then
    match collectTotals db assignments with
    | none => none
    | some scores =>
      if scores.isEmpty then none
      else some ((scores.map (fun t => (t : Rat))).sum / (scores.length : Rat))
  else none

/-- `ProposalService.submit_proposal`. -/
def submit_proposal (p : Proposal) (now : Time) : Except Err Unit × Proposal :=
  if p.status ≠ PStatus.DRAFT then
    (Except.error (Err.valueError ("Only draft proposals can be submitted")), p)
  else
    (Except.ok (), { p with status := PStatus.SUBMITTED, submitted_at := some now })

/-- `Stage1Decision.objects.create`: the `OneToOneField(proposal)` makes
the insert fail with `IntegrityError` when a decision already exists. -/
def createStage1Decision (db : Db) (d : Stage1Decision) : Except Err Db :=
  if db.stage1_decisions.any (fun x => decide (x.proposalId = d.proposalId)) then
    Except.error Err.integrityError
  else
    Except.ok { db with stage1_decisions := db.stage1_decisions ++ [d] }

/-- `ProposalService.start_revision_window` (`days=None` defaults to the
cycle's `revision_window_days`; the e-mail send is external). -/
def start_revision_window (p : Proposal) (now : Time) (days : Option Nat) : Proposal :=
  let d := days.getD p.cycle.revision_window_days
  { p with status := PStatus.REVISION_REQUESTED,
           revision_deadline := some (now + daysToSeconds d) }

/-- `ProposalService.apply_stage1_decision`.  Note the source checks only
review completion (no proposal-status check and no explicit duplicate
check); the below-threshold branch is an explicit no-op (`pass`). -/
def apply_stage1_decision (db : Db) (p : Proposal) (decision : S1Choice)
    (chair_comments : String) (now : Time) :
    Except Err Stage1Decision × Proposal × Db :=
  match check_stage1_completion db p with
  | none => (Except.error (Err.valueError ("Not all Stage 1 reviews are complete")), p, db)
  | some avg =>
    let dec : Stage1Decision :=
      { proposalId := p.id, decision := decision,
        chair_comments := chair_comments, average_score := avg }
    match createStage1Decision db dec with
    | Except.error e => (Except.error e, p, db)
    | Except.ok db1 =>
      match decision with
      | S1Choice.REJECT =>
        (Except.ok dec, { p with status := PStatus.STAGE_1_REJECTED }, db1)
      | S1Choice.ACCEPT =>
        (Except.ok dec, { p with status := PStatus.ACCEPTED_NO_CORRECTIONS }, db1)
      | S1Choice.TENTATIVELY_ACCEPT =>
        let p1 := { p with status := PStatus.TENTATIVELY_ACCEPTED }
        (Except.ok dec, start_revision_window p1 now none, db1)

/-- `Proposal.is_revision_overdue` property. -/
def is_revision_overdue (p : Proposal) (now : Time) : Bool :=
  match p.revision_deadline with
  | some d => decide (p.status = PStatus.REVISION_REQUESTED) && decide (d < now)
  | none => false

/-- `ProposalService.submit_revision`: the overdue branch force-saves
`REVISION_DEADLINE_MISSED` before raising. -/
def submit_revision (p : Proposal) (revised_file response_file : Option Nat)
    (now : Time) : Except Err Unit × Proposal :=
  if p.status ≠ PStatus.REVISION_REQUESTED then
    (Except.error (Err.valueError ("Proposal is not awaiting revision")), p)
  else if is_revision_overdue p now then
    (Except.error (Err.valueError ("Revision deadline has passed")),
     { p with status := PStatus.REVISION_DEADLINE_MISSED })
  else
    let p1 := match revised_file with
      | some f => { p with revised_proposal_file := some f }
      | none => p
    let p2 := match response_file with
      | some f => { p1 with response_to_reviewers_file := some f }
      | none => p1
    (Except.ok (), { p2 with status := PStatus.REVISED_PROPOSAL_SUBMITTED })

/-- `ProposalService.start_stage2_review`. -/
def start_stage2_review (p : Proposal) : Except Err Unit × Proposal :=
  if p.status ≠ PStatus.REVISED_PROPOSAL_SUBMITTED then
    (Except.error (Err.valueError ("Revised proposal not submitted")), p)
  else
    (Except.ok (), { p with status := PStatus.UNDER_STAGE_2_REVIEW })

/-- `ProposalService.check_stage2_completion`. -/
def check_stage2_completion (db : Db) (p : Proposal) : Bool :=
  let assignments := stageAssignments db p.id 2
  if assignments.isEmpty then false
  else assignments.all (fun a => decide (a.status = AStatus.COMPLETED))

/-- `hasattr(proposal, 'final_decision')`. -/
def hasFinalDecision (db : Db) (pid : Nat) : Bool :=
  db.final_decisions.any (fun d => decide (d.proposalId = pid))

/-- `FinalDecision.objects.create` under its one-to-one constraint. -/
def createFinalDecision (db : Db) (d : FinalDecision) : Except Err Db :=
  if hasFinalDecision db d.proposalId then
    Except.error Err.integrityError
  else
    Except.ok { db with final_decisions := db.final_decisions ++ [d] }

/-- `ProposalService.apply_final_decision`. -/
def apply_final_decision (db : Db) (p : Proposal) (decision : FChoice)
    (approved_amount : Rat) (final_remarks : String) :
    Except Err FinalDecision × Proposal × Db :=
  if p.status ≠ PStatus.UNDER_STAGE_2_REVIEW ∧
     p.status ≠ PStatus.REVISED_PROPOSAL_SUBMITTED then
    (Except.error (Err.valueError ("Final decision can only be applied after Stage 2 workflow starts")), p, db)
  else if hasFinalDecision db p.id then
    (Except.error (Err.valueError ("Final decision already exists for this proposal")), p, db)
  else if (stageAssignments db p.id 2).isEmpty = false ∧
          check_stage2_completion db p = false then
    (Except.error (Err.valueError ("Not all Stage 2 reviews are complete")), p, db)
  else
    let fd : FinalDecision :=
      { proposalId := p.id, decision := decision,
        approved_grant_amount := approved_amount, final_remarks := final_remarks }
    match createFinalDecision db fd with
    | Except.error e => (Except.error e, p, db)
    | Except.ok db1 =>
      let st := if decision = FChoice.ACCEPTED then PStatus.FINAL_ACCEPTED
                else PStatus.FINAL_REJECTED
      (Except.ok fd, { p with status := st, is_locked := true }, db1)

/-- `ProposalService.check_revision_deadline`, the per-proposal body of
the periodic deadline sweep (`tasks.check_revision_deadlines`). -/
def check_revision_deadline (p : Proposal) (now : Time) : Bool × Proposal :=
  if p.status = PStatus.REVISION_REQUESTED then
    match p.revision_deadline with
    | some d =>
      if d < now then
        (true, { p with status := PStatus.REVISION_DEADLINE_MISSED })
      else (false, p)
    | none => (false, p)
  else (false, p)

/-- `ReviewerProfile.current_review_count`: live count of PENDING
assignments for the reviewer, across all proposals and stages. -/
def current_review_count (db : Db) (reviewerId : Nat) : Nat :=
  (db.assignments.filter
    (fun a => decide (a.reviewerId = reviewerId ∧ a.status = AStatus.PENDING))).length

/-- `ReviewerProfile.can_accept_review`. -/
def can_accept_review (db : Db) (pr : ReviewerProfile) : Bool :=
  pr.is_active_reviewer && decide (current_review_count db pr.userId < pr.max_review_load)

/-- `reviewer.reviewer_profile` (raising `ReviewerProfile.DoesNotExist`
as `none`). -/
def findProfile (db : Db) (userId : Nat) : Option ReviewerProfile :=
  db.profiles.find? (fun pr => decide (pr.userId = userId))

/-- `ReviewerService.validate_assignment`: returns `(is_valid, error_message)`
with the checks in source order — duplicate triple, missing profile,
inactive reviewer, workload, per-proposal stage capacity. -/
def validate_assignment (db : Db) (p : Proposal) (reviewerId : Nat) (stage : Nat) :
    Bool × Option String :=
  if db.assignments.any
      (fun a => decide (a.proposalId = p.id ∧ a.reviewerId = reviewerId ∧ a.stage = stage)) then
    (false, some ("Reviewer is already assigned to this proposal for this stage"))
  else
    match findProfile db reviewerId with
    | none => (false, some ("User does not have a reviewer profile"))
    | some profile =>
      if profile.is_active_reviewer = false then
        (false, some ("Reviewer is not active"))
      else if can_accept_review db profile = false then
        (false, some ("Reviewer has reached maximum workload (" ++
                      toString profile.max_review_load ++ ")"))
      else
        let current_count := (stageAssignments db p.id stage).length
        if p.cycle.max_reviewers_per_proposal ≤ current_count then
          (false, some ("Maximum reviewers (" ++
                        toString p.cycle.max_reviewers_per_proposal ++ ") already assigned"))
        else (true, none)

/-- `ReviewerService.assign_reviewer`: validates, creates the assignment,
and auto-advances a SUBMITTED proposal to UNDER_STAGE_1_REVIEW on a
stage-1 assignment. -/
def assign_reviewer (db : Db) (p : Proposal) (reviewerId : Nat) (stage : Nat)
    (deadline : Time) : Except Err ReviewAssignment × Proposal × Db :=
  match validate_assignment db p reviewerId stage with
  | (false, err) => (Except.error (Err.valueError (err.getD (""))), p, db)
  | (true, _) =>
    let a : ReviewAssignment :=
      { id := db.nextAssignmentId, proposalId := p.id, reviewerId := reviewerId,
        stage := stage, status := AStatus.PENDING, deadline := deadline }
    let db1 := { db with assignments := db.assignments ++ [a],
                         nextAssignmentId := db.nextAssignmentId + 1 }
    let p1 := if p.status = PStatus.SUBMITTED ∧ stage = 1 then
                { p with status := PStatus.UNDER_STAGE_1_REVIEW }
              else p
    (Except.ok a, p1, db1)

/-- A Stage-1 score submission payload as the serializer sees it: the
criterion fields and `is_draft` have model defaults, so they may be
absent from validated data; `narrative_comments` is required. -/
structure Stage1ScoreData where
  originality_score : Option Int
  clarity_score : Option Int
  literature_review_score : Option Int
  methodology_score : Option Int
  impact_score : Option Int
  publication_potential_score : Option Int
  budget_appropriateness_score : Option Int
  timeline_practicality_score : Option Int
  narrative_comments : String
  is_draft : Option Bool
deriving DecidableEq, Repr

/-- One field check of `Stage1ScoreSerializer.validate`: a present value
must be between 0 and its per-criterion maximum. -/
def fieldOk (v : Option Int) (maxVal : Int) : Bool :=
  match v with
  | none => true
  | some x => decide (0 ≤ x ∧ x ≤ maxVal)

/-- `Stage1ScoreSerializer.validate`: each present criterion is checked
against its own maximum (15, 15, 15, 15, 15, 10, 10, 5). -/
def stage1_validate (d : Stage1ScoreData) : Bool :=
  fieldOk d.originality_score 15 &&
  fieldOk d.clarity_score 15 &&
  fieldOk d.literature_review_score 15 &&
  fieldOk d.methodology_score 15 &&
  fieldOk d.impact_score 15 &&
  fieldOk d.publication_potential_score 10 &&
  fieldOk d.budget_appropriateness_score 10 &&
  fieldOk d.timeline_practicality_score 5

/-- `serializer.save(assignment=assignment)`: creating a `Stage1Score`
row from validated data, with absent fields taking the model defaults
(criteria 0, `is_draft` True). -/
def stage1_score_from_data (aid : Nat) (d : Stage1ScoreData) : Stage1Score :=
  { assignmentId := aid,
    originality_score := d.originality_score.getD 0,
    clarity_score := d.clarity_score.getD 0,
    literature_review_score := d.literature_review_score.getD 0,
    methodology_score := d.methodology_score.getD 0,
    impact_score := d.impact_score.getD 0,
    publication_potential_score := d.publication_potential_score.getD 0,
    budget_appropriateness_score := d.budget_appropriateness_score.getD 0,
    timeline_practicality_score := d.timeline_practicality_score.getD 0,
    narrative_comments := d.narrative_comments,
    is_draft := d.is_draft.getD true }

/-- The update branch of `submit_score`: `setattr` for every key present
in the validated data, keeping the existing value otherwise. -/
def stage1_apply_data (s : Stage1Score) (d : Stage1ScoreData) : Stage1Score :=
  { s with
    originality_score := d.originality_score.getD s.originality_score,
    clarity_score := d.clarity_score.getD s.clarity_score,
    literature_review_score := d.literature_review_score.getD s.literature_review_score,
    methodology_score := d.methodology_score.getD s.methodology_score,
    impact_score := d.impact_score.getD s.impact_score,
    publication_potential_score := d.publication_potential_score.getD s.publication_potential_score,
    budget_appropriateness_score := d.budget_appropriateness_score.getD s.budget_appropriateness_score,
    timeline_practicality_score := d.timeline_practicality_score.getD s.timeline_practicality_score,
    narrative_comments := d.narrative_comments,
    is_draft := d.is_draft.getD s.is_draft }

/-- Saving a `Stage1Score`: update in place when a row for the assignment
exists, insert otherwise. -/
def saveStage1Score (db : Db) (s : Stage1Score) : Db :=
  if (findStage1Score db s.assignmentId).isSome then
    { db with stage1_scores :=
        db.stage1_scores.map (fun t => if t.assignmentId = s.assignmentId then s else t) }
  else
    { db with stage1_scores := db.stage1_scores ++ [s] }

/-- Marking an assignment COMPLETED (`assignment.save()` after the status
flip in `submit_score`). -/
def completeAssignment (db : Db) (aid : Nat) : Db :=
  { db with assignments :=
      db.assignments.map (fun a => if a.id = aid then { a with status := AStatus.COMPLETED } else a) }

/-- The Stage-1 branch of `ReviewAssignmentViewSet.submit_score`: reject
when the assignment is already COMPLETED (before any write), otherwise
validate, update the existing score in place or create one, and flip the
assignment to COMPLETED exactly when the saved score is not a draft.
(The trailing `check_stage1_completion` call is pure and its result is
discarded.) -/
def submit_score_stage1 (db : Db) (a : ReviewAssignment) (d : Stage1ScoreData) :
    Except Err Stage1Score × Db :=
  if a.status = AStatus.COMPLETED then
    (Except.error (Err.valueError ("Review already completed")), db)
  else if stage1_validate d = false then
    (Except.error (Err.valueError ("Score must be within its allowed range")), db)
  else
    let score := match findStage1Score db a.id with
      | some existing => stage1_apply_data existing d
      | none => stage1_score_from_data a.id d
    let db1 := saveStage1Score db score
    let db2 := if score.is_draft = false then completeAssignment db1 a.id else db1
    (Except.ok score, db2)

/-- A Stage-2 review submission payload (`Stage2ReviewSerializer`):
enums and comments are required, `revised_score` is optional and
`is_draft` has a model default. -/
structure Stage2ReviewData where
  concerns_addressed : Concerns
  revised_recommendation : RecChoice
  revised_score : Option Int
  comments : String
  is_draft : Option Bool
deriving DecidableEq, Repr

/-- `assignment.stage2_review` reverse one-to-one lookup. -/
def findStage2Review (db : Db) (aid : Nat) : Option Stage2Review :=
  db.stage2_reviews.find? (fun r => decide (r.assignmentId = aid))

/-- The update branch for a Stage-2 review. -/
def stage2_apply_data (r : Stage2Review) (d : Stage2ReviewData) : Stage2Review :=
  { r with
    concerns_addressed := d.concerns_addressed,
    revised_recommendation := d.revised_recommendation,
    revised_score := d.revised_score,
    comments := d.comments,
    is_draft := d.is_draft.getD r.is_draft }

/-- Creating a `Stage2Review` row from validated data. -/
def stage2_review_from_data (aid : Nat) (d : Stage2ReviewData) : Stage2Review :=
  { assignmentId := aid,
    concerns_addressed := d.concerns_addressed,
    revised_recommendation := d.revised_recommendation,
    revised_score := d.revised_score,
    comments := d.comments,
    is_draft := d.is_draft.getD true }

/-- Saving a `Stage2Review`: update in place or insert. -/
def saveStage2Review (db : Db) (r : Stage2Review) : Db :=
  if (findStage2Review db r.assignmentId).isSome then
    { db with stage2_reviews :=
        db.stage2_reviews.map (fun t => if t.assignmentId = r.assignmentId then r else t) }
  else
    { db with stage2_reviews := db.stage2_reviews ++ [r] }

/-- The Stage-2 branch of `submit_score`, with the same
already-completed guard before any write. -/
def submit_score_stage2 (db : Db) (a : ReviewAssignment) (d : Stage2ReviewData) :
    Except Err Stage2Review × Db :=
  if a.status = AStatus.COMPLETED then
    (Except.error (Err.valueError ("Review already completed")), db)
  else
    let review := match findStage2Review db a.id with
      | some existing => stage2_apply_data existing d
      | none => stage2_review_from_data a.id d
    let db1 := saveStage2Review db review
    let db2 := if review.is_draft = false then completeAssignment db1 a.id else db1
    (Except.ok review, db2)

/-! Concrete states used by witnesses and counterexamples. -/

/-- A default grant cycle: 7-day revision window, threshold 70, at most
2 reviewers per proposal. -/
def cycle0 : GrantCycle :=
  { revision_window_days := 7, acceptance_threshold := 70,
    max_reviewers_per_proposal := 2 }

/-- A locked proposal in its final state. -/
def lockedProposal : Proposal :=
  { id := 1, status := PStatus.FINAL_ACCEPTED, submitted_at := some 0,
    revision_deadline := none, is_locked := true, cycle := cycle0,
    revised_proposal_file := some 4, response_to_reviewers_file := none }

/-- Persistence state around `lockedProposal`: both decisions exist, and
an unrelated active reviewer (user 7) is available. -/
def lockedDb : Db :=
  { assignments := [],
    stage1_scores := [],
    stage2_reviews := [],
    stage1_decisions :=
      [{ proposalId := 1, decision := S1Choice.TENTATIVELY_ACCEPT,
         chair_comments := "", average_score := 86 }],
    final_decisions :=
      [{ proposalId := 1, decision := FChoice.ACCEPTED,
         approved_grant_amount := 5000, final_remarks := "ok" }],
    profiles := [{ userId := 7, max_review_load := 5, is_active_reviewer := true }],
    nextAssignmentId := 1 }

/-- A draft proposal that nevertheless owns completed stage-1 review
material (reachable: `validate_assignment` has no status precondition). -/
def draftProposal : Proposal :=
  { id := 3, status := PStatus.DRAFT, submitted_at := none,
    revision_deadline := none, is_locked := false, cycle := cycle0,
    revised_proposal_file := none, response_to_reviewers_file := none }

/-- One completed, non-draft stage-1 score totalling 86 for
assignment 30. -/
def score86 : Stage1Score :=
  { assignmentId := 30, originality_score := 15, clarity_score := 15,
    literature_review_score := 15, methodology_score := 15, impact_score := 15,
    publication_potential_score := 6, budget_appropriateness_score := 3,
    timeline_practicality_score := 2, narrative_comments := "", is_draft := false }

/-- State around `draftProposal`: a single COMPLETED stage-1 assignment
with `score86` attached, and no decision yet. -/
def draftDb : Db :=
  { assignments :=
      [{ id := 30, proposalId := 3, reviewerId := 7, stage := 1,
         status := AStatus.COMPLETED, deadline := 50 }],
    stage1_scores := [score86],
    stage2_reviews := [],
    stage1_decisions := [],
    final_decisions := [],
    profiles := [],
    nextAssignmentId := 31 }

/-- A proposal that already carries a Stage-1 decision. -/
def decidedProposal : Proposal :=
  { id := 2, status := PStatus.REVISION_REQUESTED, submitted_at := some 1,
    revision_deadline := some 900000, is_locked := false, cycle := cycle0,
    revised_proposal_file := none, response_to_reviewers_file := none }

/-- State around `decidedProposal`: its original COMPLETED stage-1
review plus a second stage-1 assignment added after the decision and
still PENDING. -/
def decidedDb : Db :=
  { assignments :=
      [{ id := 20, proposalId := 2, reviewerId := 7, stage := 1,
         status := AStatus.COMPLETED, deadline := 50 },
       { id := 21, proposalId := 2, reviewerId := 8, stage := 1,
         status := AStatus.PENDING, deadline := 60 }],
    stage1_scores :=
      [{ assignmentId := 20, originality_score := 15, clarity_score := 15,
         literature_review_score := 15, methodology_score := 15, impact_score := 15,
         publication_potential_score := 3, budget_appropriateness_score := 1,
         timeline_practicality_score := 1, narrative_comments := "", is_draft := false }],
    stage2_reviews := [],
    stage1_decisions :=
      [{ proposalId := 2, decision := S1Choice.TENTATIVELY_ACCEPT,
         chair_comments := "", average_score := 80 }],
    final_decisions := [],
    profiles := [],
    nextAssignmentId := 22 }

/-- `decidedDb` as it stood right after the decision: only the original
COMPLETED assignment. -/
def decidedDbComplete : Db :=
  { decidedDb with assignments :=
      [{ id := 20, proposalId := 2, reviewerId := 7, stage := 1,
         status := AStatus.COMPLETED, deadline := 50 }] }

/-- The single completed 86-point review in `draftDb` averages 86. -/
theorem draft_avg : check_stage1_completion draftDb draftProposal = some 86 := by
  simp [check_stage1_completion, stageAssignments, collectTotals, findStage1Score,
        draftDb, draftProposal, score86, Stage1Score.total_score]

/-- The single completed 80-point review in `decidedDbComplete`
averages 80. -/
theorem decided_avg :
    check_stage1_completion decidedDbComplete decidedProposal = some 80 := by
  simp [check_stage1_completion, stageAssignments, collectTotals, findStage1Score,
        decidedDbComplete, decidedDb, decidedProposal, Stage1Score.total_score]

/-! Helper lemmas about `apply_stage1_decision`. -/

/-- Incomplete stage-1 reviews abort `apply_stage1_decision` untouched. -/
theorem apply_stage1_incomplete (db : Db) (p : Proposal) (dec : S1Choice)
    (cc : String) (now : Time) (h : check_stage1_completion db p = none) :
    apply_stage1_decision db p dec cc now =
      (Except.error (Err.valueError ("Not all Stage 1 reviews are complete")), p, db) := by
  simp [apply_stage1_decision, h]

/-- With an existing decision the one-to-one `create` raises
`IntegrityError` and nothing changes. -/
theorem apply_stage1_integrity (db : Db) (p : Proposal) (dec : S1Choice)
    (cc : String) (now : Time) (avg : Rat)
    (h : check_stage1_completion db p = some avg)
    (hdup : (db.stage1_decisions.any (fun x => decide (x.proposalId = p.id))) = true) :
    apply_stage1_decision db p dec cc now = (Except.error Err.integrityError, p, db) := by
  simp [apply_stage1_decision, h, createStage1Decision, hdup]

/-- With complete reviews and no prior decision the call succeeds, for
every decision choice, appending exactly one decision row. -/
theorem apply_stage1_ok (db : Db) (p : Proposal) (dec : S1Choice)
    (cc : String) (now : Time) (avg : Rat)
    (h : check_stage1_completion db p = some avg)
    (hnodup : (db.stage1_decisions.any (fun x => decide (x.proposalId = p.id))) = false) :
    (apply_stage1_decision db p dec cc now).1 =
      Except.ok { proposalId := p.id, decision := dec,
                  chair_comments := cc, average_score := avg } ∧
    (apply_stage1_decision db p dec cc now).2.2 =
      { db with stage1_decisions := db.stage1_decisions ++
          [{ proposalId := p.id, decision := dec,
             chair_comments := cc, average_score := avg }] } := by
  cases dec <;> simp [apply_stage1_decision, h, createStage1Decision, hnodup]

/-- The REJECT branch in full. -/
theorem apply_stage1_reject (db : Db) (p : Proposal)
    (cc : String) (now : Time) (avg : Rat)
    (h : check_stage1_completion db p = some avg)
    (hnodup : (db.stage1_decisions.any (fun x => decide (x.proposalId = p.id))) = false) :
    apply_stage1_decision db p S1Choice.REJECT cc now =
      (Except.ok { proposalId := p.id, decision := S1Choice.REJECT,
                   chair_comments := cc, average_score := avg },
       { p with status := PStatus.STAGE_1_REJECTED },
       { db with stage1_decisions := db.stage1_decisions ++
           [{ proposalId := p.id, decision := S1Choice.REJECT,
              chair_comments := cc, average_score := avg }] }) := by
  simp [apply_stage1_decision, h, createStage1Decision, hnodup]

/-- The TENTATIVELY_ACCEPT branch in full: the proposal result is the
revision-window transition applied to the TENTATIVELY_ACCEPTED state. -/
theorem apply_stage1_tentative (db : Db) (p : Proposal)
    (cc : String) (now : Time) (avg : Rat)
    (h : check_stage1_completion db p = some avg)
    (hnodup : (db.stage1_decisions.any (fun x => decide (x.proposalId = p.id))) = false) :
    apply_stage1_decision db p S1Choice.TENTATIVELY_ACCEPT cc now =
      (Except.ok { proposalId := p.id, decision := S1Choice.TENTATIVELY_ACCEPT,
                   chair_comments := cc, average_score := avg },
       start_revision_window { p with status := PStatus.TENTATIVELY_ACCEPTED } now none,
       { db with stage1_decisions := db.stage1_decisions ++
           [{ proposalId := p.id, decision := S1Choice.TENTATIVELY_ACCEPT,
              chair_comments := cc, average_score := avg }] }) := by
  simp [apply_stage1_decision, h, createStage1Decision, hnodup]

/-! Claim theorems. -/

/-- C6: submitting a revision on a REVISION_REQUESTED proposal whose
deadline has passed force-transitions it to REVISION_DEADLINE_MISSED on
the failing call and raises the deadline error; any later
`submit_revision` (the status now being REVISION_DEADLINE_MISSED, no
longer REVISION_REQUESTED) fails and leaves the proposal unchanged, so
resubmission after a missed deadline never succeeds. -/
theorem submit_revision_deadline_enforcement
    (p q : Proposal) (rf rsf rf2 rsf2 : Option Nat) (now now2 : Time) (d : Time)
    (hst : p.status = PStatus.REVISION_REQUESTED)
    (hdl : p.revision_deadline = some d) (hlt : d < now)
    (hq : q.status = PStatus.REVISION_DEADLINE_MISSED) :
    submit_revision p rf rsf now =
      (Except.error (Err.valueError ("Revision deadline has passed")),
       { p with status := PStatus.REVISION_DEADLINE_MISSED }) ∧
    submit_revision q rf2 rsf2 now2 =
      (Except.error (Err.valueError ("Proposal is not awaiting revision")), q) := by
  constructor
  · simp [submit_revision, is_revision_overdue, hst, hdl, hlt]
  · simp [submit_revision, hq]

/-- C6 witness: a concrete overdue revision, then a failing retry. -/
theorem submit_revision_deadline_enforcement_witness :
    submit_revision decidedProposal none none 1000000 =
      (Except.error (Err.valueError ("Revision deadline has passed")),
       { decidedProposal with status := PStatus.REVISION_DEADLINE_MISSED }) ∧
    submit_revision { decidedProposal with status := PStatus.REVISION_DEADLINE_MISSED }
        none none 1000001 =
      (Except.error (Err.valueError ("Proposal is not awaiting revision")),
       { decidedProposal with status := PStatus.REVISION_DEADLINE_MISSED }) :=
  submit_revision_deadline_enforcement decidedProposal
    { decidedProposal with status := PStatus.REVISION_DEADLINE_MISSED }
    none none none none 1000000 1000001 900000 rfl rfl (by decide) rfl

/-- C2 counterexample: `decidedProposal` already has a Stage1Decision,
yet a repeated `apply_stage1_decision` fails with the incomplete-reviews
`ValueError`, not with any duplicate-decision failure (a stage-1
assignment added after the decision is still PENDING). -/
theorem stage1_duplicate_not_flagged :
    (decidedDb.stage1_decisions.any
      (fun x => decide (x.proposalId = decidedProposal.id))) = true ∧
    (apply_stage1_decision decidedDb decidedProposal S1Choice.REJECT ("") 0).1 =
      Except.error (Err.valueError ("Not all Stage 1 reviews are complete")) := by
  constructor
  · decide
  · rw [apply_stage1_incomplete decidedDb decidedProposal S1Choice.REJECT ("") 0 (by decide)]

/-- C2 (amended): on a proposal that already has a Stage1Decision,
`apply_stage1_decision` always fails, creates no second record and
changes nothing; when the stage-1 review set is still complete the
failure is the one-to-one `IntegrityError` (the duplicate-decision
condition — there is no explicit duplicate check), otherwise it is the
incomplete-reviews error. -/
theorem apply_stage1_decision_existing_decision
    (db : Db) (p : Proposal) (dec : S1Choice) (cc : String) (now : Time)
    (hdup : (db.stage1_decisions.any (fun x => decide (x.proposalId = p.id))) = true) :
    exceptIsOk (apply_stage1_decision db p dec cc now).1 = false ∧
    (apply_stage1_decision db p dec cc now).2.1 = p ∧
    (apply_stage1_decision db p dec cc now).2.2 = db ∧
    (∀ avg, check_stage1_completion db p = some avg →
      (apply_stage1_decision db p dec cc now).1 = Except.error Err.integrityError) := by
  cases h : check_stage1_completion db p with
  | none =>
    rw [apply_stage1_incomplete db p dec cc now h]
    exact ⟨rfl, rfl, rfl, fun avg havg => Option.noConfusion havg⟩
  | some avg =>
    rw [apply_stage1_integrity db p dec cc now avg h hdup]
    exact ⟨rfl, rfl, rfl, fun avg2 havg => rfl⟩

/-- C2 witness: with the extra assignment completed-free state removed —
here the original single COMPLETED review — the repeat call hits the
one-to-one constraint. -/
theorem apply_stage1_decision_existing_decision_witness :
    exceptIsOk (apply_stage1_decision decidedDbComplete
      decidedProposal S1Choice.REJECT ("") 0).1 = false ∧
    (apply_stage1_decision decidedDbComplete
      decidedProposal S1Choice.REJECT ("") 0).1 = Except.error Err.integrityError := by
  have h := apply_stage1_decision_existing_decision decidedDbComplete
    decidedProposal S1Choice.REJECT ("") 0 (by decide)
  exact ⟨h.1, h.2.2.2 80 decided_avg⟩

/-- C3 counterexample: a DRAFT proposal (status not
UNDER_STAGE_1_REVIEW) with one COMPLETED, scored stage-1 assignment: the
decision call succeeds and rewrites the status instead of failing with a
state error. -/
theorem stage1_decision_no_status_check :
    draftProposal.status ≠ PStatus.UNDER_STAGE_1_REVIEW ∧
    exceptIsOk (apply_stage1_decision draftDb draftProposal S1Choice.REJECT ("") 0).1 = true ∧
    (apply_stage1_decision draftDb draftProposal S1Choice.REJECT ("") 0).2.1.status =
      PStatus.STAGE_1_REJECTED := by
  have h := apply_stage1_reject draftDb draftProposal ("") 0 86 draft_avg (by decide)
  rw [h]
  exact ⟨by decide, rfl, rfl⟩

/-- C3 (amended): `apply_stage1_decision` performs no proposal-status
check at all: it fails — with the incomplete-reviews error, proposal and
database untouched — exactly when the stage-1 aggregation is incomplete,
and whenever the aggregation yields an average and no decision exists it
succeeds from any status whatsoever. -/
theorem apply_stage1_decision_status_independent
    (db : Db) (p : Proposal) (dec : S1Choice) (cc : String) (now : Time) :
    (check_stage1_completion db p = none →
      apply_stage1_decision db p dec cc now =
        (Except.error (Err.valueError ("Not all Stage 1 reviews are complete")), p, db)) ∧
    (∀ avg, check_stage1_completion db p = some avg →
      (db.stage1_decisions.any (fun x => decide (x.proposalId = p.id))) = false →
      exceptIsOk (apply_stage1_decision db p dec cc now).1 = true) := by
  refine ⟨fun h => apply_stage1_incomplete db p dec cc now h, fun avg havg hnodup => ?_⟩
  rw [(apply_stage1_ok db p dec cc now avg havg hnodup).1]
  rfl

/-- C3 amended witness: the DRAFT-status state from the counterexample
instantiates the success side. -/
theorem apply_stage1_decision_status_independent_witness :
    exceptIsOk (apply_stage1_decision draftDb draftProposal S1Choice.ACCEPT ("") 0).1 = true :=
  (apply_stage1_decision_status_independent draftDb draftProposal
    S1Choice.ACCEPT ("") 0).2 86 draft_avg (by decide)

/-- C7: with complete stage-1 reviews and no prior decision, a
TENTATIVELY_ACCEPT decision is the compound transition: the resulting
proposal is exactly `start_revision_window` applied to the proposal in
the intermediate TENTATIVELY_ACCEPTED state, ending at
REVISION_REQUESTED with deadline `now` plus the cycle's revision window,
and the created decision row snapshots the average computed at decision
time. -/
theorem tentative_accept_compound
    (db : Db) (p : Proposal) (cc : String) (now : Time) (avg : Rat)
    (havg : check_stage1_completion db p = some avg)
    (hnodup : (db.stage1_decisions.any (fun x => decide (x.proposalId = p.id))) = false) :
    apply_stage1_decision db p S1Choice.TENTATIVELY_ACCEPT cc now =
      (Except.ok { proposalId := p.id, decision := S1Choice.TENTATIVELY_ACCEPT,
                   chair_comments := cc, average_score := avg },
       start_revision_window { p with status := PStatus.TENTATIVELY_ACCEPTED } now none,
       { db with stage1_decisions := db.stage1_decisions ++
           [{ proposalId := p.id, decision := S1Choice.TENTATIVELY_ACCEPT,
              chair_comments := cc, average_score := avg }] }) ∧
    (apply_stage1_decision db p S1Choice.TENTATIVELY_ACCEPT cc now).2.1.status =
      PStatus.REVISION_REQUESTED ∧
    (apply_stage1_decision db p S1Choice.TENTATIVELY_ACCEPT cc now).2.1.revision_deadline =
      some (now + daysToSeconds p.cycle.revision_window_days) := by
  have h := apply_stage1_tentative db p cc now avg havg hnodup
  refine ⟨h, ?_, ?_⟩ <;> rw [h] <;> simp [start_revision_window]

/-- C7 witness: one completed review totalling 86 snapshots an average
of 86 and opens a 7-day revision window. -/
theorem tentative_accept_compound_witness :
    check_stage1_completion draftDb draftProposal = some 86 ∧
    (apply_stage1_decision draftDb draftProposal S1Choice.TENTATIVELY_ACCEPT ("") 5).1 =
      Except.ok { proposalId := 3, decision := S1Choice.TENTATIVELY_ACCEPT,
                  chair_comments := "", average_score := 86 } ∧
    (apply_stage1_decision draftDb draftProposal S1Choice.TENTATIVELY_ACCEPT ("") 5).2.1.status =
      PStatus.REVISION_REQUESTED ∧
    (apply_stage1_decision draftDb draftProposal S1Choice.TENTATIVELY_ACCEPT ("") 5).2.1.revision_deadline =
      some (5 + daysToSeconds 7) := by
  have h := tentative_accept_compound draftDb draftProposal ("") 5 86 draft_avg (by decide)
  refine ⟨draft_avg, ?_, h.2.1, h.2.2⟩
  rw [h.1]
  rfl

/-- C1 counterexample: on a locked proposal (final state, decisions in
place) `assign_reviewer` — one of the claim's transition operations —
succeeds and creates an assignment instead of failing with a
proposal-locked error; no transition method consults the lock flag. -/
theorem locked_assign_reviewer_succeeds :
    lockedProposal.is_locked = true ∧
    exceptIsOk (assign_reviewer lockedDb lockedProposal 7 1 100).1 = true ∧
    (assign_reviewer lockedDb lockedProposal 7 1 100).2.2.assignments.length = 1 := by
  decide

/-- C1 (amended): a locked proposal is always in FINAL_ACCEPTED or
FINAL_REJECTED with its Stage1Decision present, and in such a state the
status-guarded operations — submit_proposal, apply_stage1_decision,
submit_revision, start_stage2_review, apply_final_decision and the
deadline sweep — all fail (ordinary status or uniqueness errors, not a
lock check) and leave the proposal and database untouched; only
`assign_reviewer` (see the counterexample) can still succeed. -/
theorem locked_proposal_transitions
    (db : Db) (p : Proposal) (now now2 : Time)
    (dec : S1Choice) (cc : String) (fdec : FChoice) (amt : Rat) (rem : String)
    (rf rsf : Option Nat)
    (hlock : p.is_locked = true)
    (hfinal : p.status = PStatus.FINAL_ACCEPTED ∨ p.status = PStatus.FINAL_REJECTED)
    (hdec : (db.stage1_decisions.any (fun x => decide (x.proposalId = p.id))) = true) :
    submit_proposal p now =
      (Except.error (Err.valueError ("Only draft proposals can be submitted")), p) ∧
    exceptIsOk (apply_stage1_decision db p dec cc now).1 = false ∧
    (apply_stage1_decision db p dec cc now).2.1 = p ∧
    (apply_stage1_decision db p dec cc now).2.2 = db ∧
    submit_revision p rf rsf now =
      (Except.error (Err.valueError ("Proposal is not awaiting revision")), p) ∧
    start_stage2_review p =
      (Except.error (Err.valueError ("Revised proposal not submitted")), p) ∧
    apply_final_decision db p fdec amt rem =
      (Except.error (Err.valueError ("Final decision can only be applied after Stage 2 workflow starts")), p, db) ∧
    check_revision_deadline p now2 = (false, p) := by
  have hs1 : exceptIsOk (apply_stage1_decision db p dec cc now).1 = false ∧
      (apply_stage1_decision db p dec cc now).2.1 = p ∧
      (apply_stage1_decision db p dec cc now).2.2 = db := by
    cases hch : check_stage1_completion db p with
    | none =>
      rw [apply_stage1_incomplete db p dec cc now hch]
      exact ⟨rfl, rfl, rfl⟩
    | some avg =>
      rw [apply_stage1_integrity db p dec cc now avg hch hdec]
      exact ⟨rfl, rfl, rfl⟩
  rcases hfinal with h | h <;>
    exact ⟨by simp [submit_proposal, h], hs1.1, hs1.2.1, hs1.2.2,
           by simp [submit_revision, h], by simp [start_stage2_review, h],
           by simp [apply_final_decision, h], by simp [check_revision_deadline, h]⟩

/-- C1 amended witness: the concrete locked state. -/
theorem locked_proposal_transitions_witness :
    submit_proposal lockedProposal 0 =
      (Except.error (Err.valueError ("Only draft proposals can be submitted")), lockedProposal) ∧
    check_revision_deadline lockedProposal 0 = (false, lockedProposal) := by
  have h := locked_proposal_transitions lockedDb lockedProposal 0 0 S1Choice.REJECT ("")
    FChoice.ACCEPTED 0 ("") none none rfl (Or.inl rfl) (by decide)
  exact ⟨h.1, h.2.2.2.2.2.2.2⟩

/-! Helper lemmas about `apply_final_decision`. -/

/-- Status outside the stage-2 workflow aborts the final decision. -/
theorem apply_final_fail_status (db : Db) (p : Proposal) (dec : FChoice)
    (amt : Rat) (rem : String)
    (h : p.status ≠ PStatus.UNDER_STAGE_2_REVIEW ∧
         p.status ≠ PStatus.REVISED_PROPOSAL_SUBMITTED) :
    apply_final_decision db p dec amt rem =
      (Except.error (Err.valueError ("Final decision can only be applied after Stage 2 workflow starts")), p, db) := by
  unfold apply_final_decision
  rw [if_pos h]

/-- An existing FinalDecision aborts the call via the `hasattr` check. -/
theorem apply_final_fail_dup (db : Db) (p : Proposal) (dec : FChoice)
    (amt : Rat) (rem : String)
    (h1 : ¬(p.status ≠ PStatus.UNDER_STAGE_2_REVIEW ∧
            p.status ≠ PStatus.REVISED_PROPOSAL_SUBMITTED))
    (h2 : hasFinalDecision db p.id = true) :
    apply_final_decision db p dec amt rem =
      (Except.error (Err.valueError ("Final decision already exists for this proposal")), p, db) := by
  unfold apply_final_decision
  rw [if_neg h1, if_pos h2]

/-- Incomplete stage-2 assignments abort the call. -/
theorem apply_final_fail_incomplete (db : Db) (p : Proposal) (dec : FChoice)
    (amt : Rat) (rem : String)
    (h1 : ¬(p.status ≠ PStatus.UNDER_STAGE_2_REVIEW ∧
            p.status ≠ PStatus.REVISED_PROPOSAL_SUBMITTED))
    (h2 : hasFinalDecision db p.id = false)
    (h3 : (stageAssignments db p.id 2).isEmpty = false ∧
          check_stage2_completion db p = false) :
    apply_final_decision db p dec amt rem =
      (Except.error (Err.valueError ("Not all Stage 2 reviews are complete")), p, db) := by
  unfold apply_final_decision
  rw [if_neg h1, if_neg (by simp [h2]), if_pos h3]

/-- The success path of `apply_final_decision` in full. -/
theorem apply_final_success (db : Db) (p : Proposal) (dec : FChoice)
    (amt : Rat) (rem : String)
    (h1 : p.status = PStatus.UNDER_STAGE_2_REVIEW ∨
          p.status = PStatus.REVISED_PROPOSAL_SUBMITTED)
    (h2 : hasFinalDecision db p.id = false)
    (h3 : (stageAssignments db p.id 2).isEmpty = true ∨
          check_stage2_completion db p = true) :
    apply_final_decision db p dec amt rem =
      (Except.ok { proposalId := p.id, decision := dec,
                   approved_grant_amount := amt, final_remarks := rem },
       { p with status := if dec = FChoice.ACCEPTED then PStatus.FINAL_ACCEPTED
                          else PStatus.FINAL_REJECTED,
                is_locked := true },
       { db with final_decisions := db.final_decisions ++
           [{ proposalId := p.id, decision := dec,
              approved_grant_amount := amt, final_remarks := rem }] }) := by
  have h1n : ¬(p.status ≠ PStatus.UNDER_STAGE_2_REVIEW ∧
               p.status ≠ PStatus.REVISED_PROPOSAL_SUBMITTED) := by
    rcases h1 with h | h <;> simp [h]
  have h3n : ¬((stageAssignments db p.id 2).isEmpty = false ∧
               check_stage2_completion db p = false) := by
    rcases h3 with h | h <;> simp [h]
  unfold apply_final_decision
  rw [if_neg h1n, if_neg (by simp [h2]), if_neg h3n]
  simp [createFinalDecision, h2]

/-- C4: `apply_final_decision` succeeds exactly when the status is
UNDER_STAGE_2_REVIEW or REVISED_PROPOSAL_SUBMITTED, no FinalDecision
exists yet, and the stage-2 assignment set is empty (direct path) or
fully COMPLETED; on success it appends exactly one FinalDecision, maps
ACCEPTED to FINAL_ACCEPTED and everything else to FINAL_REJECTED, sets
the lock unconditionally, and a second call on the result always
fails, leaving everything unchanged. -/
theorem apply_final_decision_spec
    (db : Db) (p : Proposal) (dec dec2 : FChoice)
    (amt amt2 : Rat) (rem rem2 : String) :
    (exceptIsOk (apply_final_decision db p dec amt rem).1 = true ↔
      ((p.status = PStatus.UNDER_STAGE_2_REVIEW ∨
        p.status = PStatus.REVISED_PROPOSAL_SUBMITTED) ∧
       hasFinalDecision db p.id = false ∧
       ((stageAssignments db p.id 2).isEmpty = true ∨
        check_stage2_completion db p = true))) ∧
    (exceptIsOk (apply_final_decision db p dec amt rem).1 = true →
      apply_final_decision db p dec amt rem =
        (Except.ok { proposalId := p.id, decision := dec,
                     approved_grant_amount := amt, final_remarks := rem },
         { p with status := if dec = FChoice.ACCEPTED then PStatus.FINAL_ACCEPTED
                            else PStatus.FINAL_REJECTED,
                  is_locked := true },
         { db with final_decisions := db.final_decisions ++
             [{ proposalId := p.id, decision := dec,
                approved_grant_amount := amt, final_remarks := rem }] }) ∧
      apply_final_decision (apply_final_decision db p dec amt rem).2.2
          (apply_final_decision db p dec amt rem).2.1 dec2 amt2 rem2 =
        (Except.error (Err.valueError ("Final decision can only be applied after Stage 2 workflow starts")),
         (apply_final_decision db p dec amt rem).2.1,
         (apply_final_decision db p dec amt rem).2.2)) := by
  have hiff : exceptIsOk (apply_final_decision db p dec amt rem).1 = true ↔
      ((p.status = PStatus.UNDER_STAGE_2_REVIEW ∨
        p.status = PStatus.REVISED_PROPOSAL_SUBMITTED) ∧
       hasFinalDecision db p.id = false ∧
       ((stageAssignments db p.id 2).isEmpty = true ∨
        check_stage2_completion db p = true)) := by
    constructor
    · intro hok
      by_cases h1 : p.status = PStatus.UNDER_STAGE_2_REVIEW ∨
          p.status = PStatus.REVISED_PROPOSAL_SUBMITTED
      · by_cases h2 : hasFinalDecision db p.id = false
        · by_cases h3 : (stageAssignments db p.id 2).isEmpty = true ∨
              check_stage2_completion db p = true
          · exact ⟨h1, h2, h3⟩
          · exact absurd hok (by
              rw [apply_final_fail_incomplete db p dec amt rem
                (by rcases h1 with h | h <;> simp [h]) h2
                ⟨by simpa [Bool.not_eq_true] using (not_or.mp h3).1,
                 by simpa [Bool.not_eq_true] using (not_or.mp h3).2⟩]
              simp [exceptIsOk])
        · have h2t : hasFinalDecision db p.id = true := by
            simpa [Bool.not_eq_false] using h2
          exact absurd hok (by
            rw [apply_final_fail_dup db p dec amt rem
              (by rcases h1 with h | h <;> simp [h]) h2t]
            simp [exceptIsOk])
      · have h1n : p.status ≠ PStatus.UNDER_STAGE_2_REVIEW ∧
            p.status ≠ PStatus.REVISED_PROPOSAL_SUBMITTED := not_or.mp h1
        exact absurd hok (by
          rw [apply_final_fail_status db p dec amt rem h1n]
          simp [exceptIsOk])
    · rintro ⟨h1, h2, h3⟩
      rw [apply_final_success db p dec amt rem h1 h2 h3]
      rfl
  refine ⟨hiff, fun hok => ?_⟩
  obtain ⟨h1, h2, h3⟩ := hiff.mp hok
  have hsucc := apply_final_success db p dec amt rem h1 h2 h3
  refine ⟨hsucc, ?_⟩
  rw [hsucc]
  exact apply_final_fail_status _ _ dec2 amt2 rem2
    (by by_cases hd : dec = FChoice.ACCEPTED <;> simp [hd])

/-- A proposal ready for the direct final-decision path: revised
proposal submitted, no stage-2 assignments anywhere. -/
def directProposal : Proposal :=
  { id := 5, status := PStatus.REVISED_PROPOSAL_SUBMITTED, submitted_at := some 1,
    revision_deadline := some 10, is_locked := false, cycle := cycle0,
    revised_proposal_file := some 9, response_to_reviewers_file := none }

/-- An empty persistence state around `directProposal`. -/
def directDb : Db :=
  { assignments := [], stage1_scores := [], stage2_reviews := [],
    stage1_decisions := [], final_decisions := [], profiles := [],
    nextAssignmentId := 1 }

/-- C4 witness: the end-to-end direct path — `ACCEPTED, amount 5000,
remarks ok` with zero stage-2 assignments succeeds, locks, sets
FINAL_ACCEPTED, and the second call fails. -/
theorem apply_final_decision_spec_witness :
    exceptIsOk (apply_final_decision directDb directProposal
      FChoice.ACCEPTED 5000 ("ok")).1 = true ∧
    (apply_final_decision directDb directProposal
      FChoice.ACCEPTED 5000 ("ok")).2.1.status = PStatus.FINAL_ACCEPTED ∧
    (apply_final_decision directDb directProposal
      FChoice.ACCEPTED 5000 ("ok")).2.1.is_locked = true ∧
    exceptIsOk (apply_final_decision
      (apply_final_decision directDb directProposal FChoice.ACCEPTED 5000 ("ok")).2.2
      (apply_final_decision directDb directProposal FChoice.ACCEPTED 5000 ("ok")).2.1
      FChoice.REJECTED 0 ("again")).1 = false := by
  have h := apply_final_decision_spec directDb directProposal
    FChoice.ACCEPTED FChoice.REJECTED 5000 0 ("ok") ("again")
  have hok : exceptIsOk (apply_final_decision directDb directProposal
      FChoice.ACCEPTED 5000 ("ok")).1 = true :=
    h.1.mpr ⟨Or.inr rfl, rfl, Or.inl rfl⟩
  have h2 := h.2 hok
  refine ⟨hok, ?_, ?_, ?_⟩
  · simp [h2.1]
  · simp [h2.1]
  · simp [h2.2, exceptIsOk]

/-! Helper lemmas about `collectTotals` and `check_stage1_completion`
for the aggregation claim. -/

/-- The collection loop fails exactly when some walked assignment has no
attached score. -/
theorem collectTotals_eq_none_iff (db : Db) (l : List ReviewAssignment) :
    collectTotals db l = none ↔ ∃ a ∈ l, findStage1Score db a.id = none := by
  induction l with
  | nil => simp [collectTotals]
  | cons a rest ih =>
    cases hf : findStage1Score db a.id with
    | none =>
      constructor
      · intro _
        exact ⟨a, List.mem_cons_self a rest, hf⟩
      · intro _
        rw [collectTotals, hf]
    | some s =>
      cases hr : collectTotals db rest with
      | none =>
        constructor
        · intro _
          obtain ⟨b, hb, hbn⟩ := ih.mp hr
          exact ⟨b, List.mem_cons_of_mem a hb, hbn⟩
        · intro _
          rw [collectTotals, hf, hr]
      | some ts =>
        rw [collectTotals, hf, hr]
        constructor
        · intro h
          exact Option.noConfusion h
        · rintro ⟨b, hb, hbn⟩
          rcases List.mem_cons.mp hb with hba | hbr
          · subst hba
            exact Option.noConfusion (hf.symm.trans hbn)
          · have := ih.mpr ⟨b, hbr, hbn⟩
            exact Option.noConfusion (hr.symm.trans this)

/-- A successful collection walks the whole list. -/
theorem collectTotals_length (db : Db) (l : List ReviewAssignment)
    (ts : List Int) (h : collectTotals db l = some ts) : ts.length = l.length := by
  induction l generalizing ts with
  | nil =>
    simp only [collectTotals, Option.some.injEq] at h
    subst h
    rfl
  | cons a rest ih =>
    cases hf : findStage1Score db a.id with
    | none => rw [collectTotals, hf] at h; exact Option.noConfusion h
    | some s =>
      cases hr : collectTotals db rest with
      | none => rw [collectTotals, hf, hr] at h; exact Option.noConfusion h
      | some ts2 =>
        rw [collectTotals, hf, hr, Option.some.injEq] at h
        rw [← h]
        simp [ih ts2 hr]

/-- Evaluation: no assignments means incomplete. -/
theorem check_none_of_empty (db : Db) (p : Proposal)
    (hE : (stageAssignments db p.id 1).isEmpty = true) :
    check_stage1_completion db p = none := by
  simp only [check_stage1_completion]
  rw [hE]
  rfl

/-- Evaluation: a non-COMPLETED assignment means incomplete. -/
theorem check_none_of_not_all (db : Db) (p : Proposal)
    (hA : (stageAssignments db p.id 1).all
      (fun a => decide (a.status = AStatus.COMPLETED)) = false) :
    check_stage1_completion db p = none := by
  simp only [check_stage1_completion]
  rw [hA]
  simp

/-- Evaluation: a missing score means incomplete. -/
theorem check_none_of_missing (db : Db) (p : Proposal)
    (hC : collectTotals db (stageAssignments db p.id 1) = none) :
    check_stage1_completion db p = none := by
  simp only [check_stage1_completion]
  rw [hC]
  simp

/-- Evaluation: the complete case returns the arithmetic mean. -/
theorem check_some_eval (db : Db) (p : Proposal)
    (hE : (stageAssignments db p.id 1).isEmpty = false)
    (hA : (stageAssignments db p.id 1).all
      (fun a => decide (a.status = AStatus.COMPLETED)) = true)
    (ts : List Int) (hC : collectTotals db (stageAssignments db p.id 1) = some ts)
    (hT : ts.isEmpty = false) :
    check_stage1_completion db p =
      some ((ts.map (fun t => (t : Rat))).sum / (ts.length : Rat)) := by
  simp only [check_stage1_completion]
  rw [hE, hA, hC]
  simp [hT]

/-- C5: the stage-1 aggregation is incomplete (`None`) exactly when the
stage-1 assignment set is empty, some stage-1 assignment is not
COMPLETED, or some COMPLETED stage-1 assignment lacks a `Stage1Score`;
otherwise it yields the arithmetic mean of the collected per-reviewer
totals.  Emptiness in particular is never reported as average zero. -/
theorem check_stage1_completion_spec (db : Db) (p : Proposal) :
    (check_stage1_completion db p = none ↔
      (stageAssignments db p.id 1 = [] ∨
       (∃ a ∈ stageAssignments db p.id 1, a.status ≠ AStatus.COMPLETED) ∨
       (∃ a ∈ stageAssignments db p.id 1, a.status = AStatus.COMPLETED ∧
          findStage1Score db a.id = none))) ∧
    (∀ ts : List Int,
      collectTotals db (stageAssignments db p.id 1) = some ts →
      stageAssignments db p.id 1 ≠ [] →
      (∀ a ∈ stageAssignments db p.id 1, a.status = AStatus.COMPLETED) →
      check_stage1_completion db p =
        some ((ts.map (fun t => (t : Rat))).sum / (ts.length : Rat))) := by
  have hmean : ∀ ts : List Int,
      collectTotals db (stageAssignments db p.id 1) = some ts →
      stageAssignments db p.id 1 ≠ [] →
      (∀ a ∈ stageAssignments db p.id 1, a.status = AStatus.COMPLETED) →
      check_stage1_completion db p =
        some ((ts.map (fun t => (t : Rat))).sum / (ts.length : Rat)) := by
    intro ts hC hne hall
    have hE : (stageAssignments db p.id 1).isEmpty = false := by
      cases h : stageAssignments db p.id 1 with
      | nil => exact absurd h hne
      | cons a rest => rfl
    have hA : (stageAssignments db p.id 1).all
        (fun a => decide (a.status = AStatus.COMPLETED)) = true := by
      simp only [List.all_eq_true, decide_eq_true_eq]
      exact hall
    have hT : ts.isEmpty = false := by
      have hlen := collectTotals_length db _ ts hC
      cases hts : ts with
      | nil =>
        rw [hts] at hlen
        exact absurd (List.length_eq_zero.mp hlen.symm) hne
      | cons t rest => rfl
    exact check_some_eval db p hE hA ts hC hT
  refine ⟨?_, hmean⟩
  by_cases hne : stageAssignments db p.id 1 = []
  · refine iff_of_true (check_none_of_empty db p (by simp [hne])) (Or.inl hne)
  · by_cases hall : ∀ a ∈ stageAssignments db p.id 1, a.status = AStatus.COMPLETED
    · cases hC : collectTotals db (stageAssignments db p.id 1) with
      | none =>
        refine iff_of_true (check_none_of_missing db p hC) ?_
        obtain ⟨x, hx, hxn⟩ := (collectTotals_eq_none_iff db _).mp hC
        exact Or.inr (Or.inr ⟨x, hx, hall x hx, hxn⟩)
      | some ts =>
        refine iff_of_false ?_ ?_
        · rw [hmean ts hC hne hall]
          exact Option.noConfusion
        · rintro (h | ⟨x, hx, hxs⟩ | ⟨x, hx, hxc, hxn⟩)
          · exact hne h
          · exact hxs (hall x hx)
          · have := (collectTotals_eq_none_iff db _).mpr ⟨x, hx, hxn⟩
            exact Option.noConfusion (hC.symm.trans this)
    · refine iff_of_true ?_ ?_
      · apply check_none_of_not_all db p
        rw [List.all_eq_false]
        push_neg at hall
        obtain ⟨x, hx, hxs⟩ := hall
        exact ⟨x, hx, by simpa using hxs⟩
      · push_neg at hall
        obtain ⟨x, hx, hxs⟩ := hall
        exact Or.inr (Or.inl ⟨x, hx, hxs⟩)

/-- A proposal under stage-1 review with two completed reviews. -/
def twoReviewProposal : Proposal :=
  { id := 6, status := PStatus.UNDER_STAGE_1_REVIEW, submitted_at := some 1,
    revision_deadline := none, is_locked := false, cycle := cycle0,
    revised_proposal_file := none, response_to_reviewers_file := none }

/-- Two COMPLETED stage-1 assignments with totals 80 and 90. -/
def twoReviewDb : Db :=
  { assignments :=
      [{ id := 40, proposalId := 6, reviewerId := 7, stage := 1,
         status := AStatus.COMPLETED, deadline := 50 },
       { id := 41, proposalId := 6, reviewerId := 8, stage := 1,
         status := AStatus.COMPLETED, deadline := 50 }],
    stage1_scores :=
      [{ assignmentId := 40, originality_score := 15, clarity_score := 15,
         literature_review_score := 15, methodology_score := 15, impact_score := 10,
         publication_potential_score := 5, budget_appropriateness_score := 4,
         timeline_practicality_score := 1, narrative_comments := "", is_draft := false },
       { assignmentId := 41, originality_score := 15, clarity_score := 15,
         literature_review_score := 15, methodology_score := 15, impact_score := 15,
         publication_potential_score := 8, budget_appropriateness_score := 5,
         timeline_practicality_score := 2, narrative_comments := "", is_draft := false }],
    stage2_reviews := [],
    stage1_decisions := [],
    final_decisions := [],
    profiles := [],
    nextAssignmentId := 42 }

/-- C5 witness: totals 80 and 90 aggregate to the mean 85. -/
theorem check_stage1_completion_spec_witness :
    check_stage1_completion twoReviewDb twoReviewProposal = some 85 := by
  have h := (check_stage1_completion_spec twoReviewDb twoReviewProposal).2
    [(80 : Int), 90] (by decide) (by decide) (by decide)
  rw [h]
  norm_num

/-- A profile lookup returns the profile registered under the queried
user id. -/
theorem findProfile_userId (db : Db) (rid : Nat) (pr : ReviewerProfile)
    (h : findProfile db rid = some pr) : pr.userId = rid := by
  have h' : db.profiles.find? (fun x => decide (x.userId = rid)) = some pr := h
  simpa using List.find?_some h'

/-- C8: `validate_assignment` runs its five checks in source order with
the first failing check winning — duplicate triple, missing reviewer
profile, inactive reviewer, pending workload at or above
`max_review_load`, stage capacity at `max_reviewers_per_proposal` — each
failure carrying its own message, and succeeds exactly when all five
pass. -/
theorem validate_assignment_spec (db : Db) (p : Proposal) (rid stage : Nat) :
    ((db.assignments.any (fun a =>
        decide (a.proposalId = p.id ∧ a.reviewerId = rid ∧ a.stage = stage))) = true →
      validate_assignment db p rid stage =
        (false, some ("Reviewer is already assigned to this proposal for this stage"))) ∧
    ((db.assignments.any (fun a =>
        decide (a.proposalId = p.id ∧ a.reviewerId = rid ∧ a.stage = stage))) = false →
      findProfile db rid = none →
      validate_assignment db p rid stage =
        (false, some ("User does not have a reviewer profile"))) ∧
    (∀ pr : ReviewerProfile,
      (db.assignments.any (fun a =>
        decide (a.proposalId = p.id ∧ a.reviewerId = rid ∧ a.stage = stage))) = false →
      findProfile db rid = some pr →
      pr.is_active_reviewer = false →
      validate_assignment db p rid stage = (false, some ("Reviewer is not active"))) ∧
    (∀ pr : ReviewerProfile,
      (db.assignments.any (fun a =>
        decide (a.proposalId = p.id ∧ a.reviewerId = rid ∧ a.stage = stage))) = false →
      findProfile db rid = some pr →
      pr.is_active_reviewer = true →
      pr.max_review_load ≤ current_review_count db rid →
      validate_assignment db p rid stage =
        (false, some ("Reviewer has reached maximum workload (" ++
                      toString pr.max_review_load ++ ")"))) ∧
    (∀ pr : ReviewerProfile,
      (db.assignments.any (fun a =>
        decide (a.proposalId = p.id ∧ a.reviewerId = rid ∧ a.stage = stage))) = false →
      findProfile db rid = some pr →
      pr.is_active_reviewer = true →
      current_review_count db rid < pr.max_review_load →
      p.cycle.max_reviewers_per_proposal ≤ (stageAssignments db p.id stage).length →
      validate_assignment db p rid stage =
        (false, some ("Maximum reviewers (" ++
                      toString p.cycle.max_reviewers_per_proposal ++ ") already assigned"))) ∧
    (∀ pr : ReviewerProfile,
      (db.assignments.any (fun a =>
        decide (a.proposalId = p.id ∧ a.reviewerId = rid ∧ a.stage = stage))) = false →
      findProfile db rid = some pr →
      pr.is_active_reviewer = true →
      current_review_count db rid < pr.max_review_load →
      (stageAssignments db p.id stage).length < p.cycle.max_reviewers_per_proposal →
      validate_assignment db p rid stage = (true, none)) := by
  refine ⟨?_, ?_, ?_, ?_, ?_, ?_⟩
  · intro hdup
    simp only [validate_assignment, hdup, if_true]
  · intro hdup hpr
    simp only [validate_assignment, hdup, Bool.false_eq_true, if_false, hpr]
  · intro pr hdup hpr hact
    simp only [validate_assignment, hdup, Bool.false_eq_true, if_false, hpr,
      hact, if_true]
  · intro pr hdup hpr hact hload
    have hcnt : ¬(current_review_count db pr.userId < pr.max_review_load) := by
      rw [findProfile_userId db rid pr hpr]
      omega
    simp only [validate_assignment, hdup, Bool.false_eq_true, if_false, hpr,
      hact, Bool.true_eq_false, can_accept_review, Bool.true_and,
      hcnt, decide_False, if_true]
  · intro pr hdup hpr hact hload hcap
    have hcnt : current_review_count db pr.userId < pr.max_review_load := by
      rw [findProfile_userId db rid pr hpr]
      exact hload
    simp only [validate_assignment, hdup, Bool.false_eq_true, if_false, hpr,
      hact, Bool.true_eq_false, can_accept_review, Bool.true_and,
      hcnt, decide_True, hcap, if_true]
  · intro pr hdup hpr hact hload hcap
    have hcnt : current_review_count db pr.userId < pr.max_review_load := by
      rw [findProfile_userId db rid pr hpr]
      exact hload
    have hcapn : ¬(p.cycle.max_reviewers_per_proposal ≤
        (stageAssignments db p.id stage).length) := by
      omega
    simp only [validate_assignment, hdup, Bool.false_eq_true, if_false, hpr,
      hact, Bool.true_eq_false, can_accept_review, Bool.true_and,
      hcnt, decide_True, hcapn, if_false]

/-- C8 witness: a fresh active reviewer under all limits validates. -/
theorem validate_assignment_spec_witness :
    validate_assignment lockedDb lockedProposal 7 1 = (true, none) :=
  (validate_assignment_spec lockedDb lockedProposal 7 1).2.2.2.2.2
    { userId := 7, max_review_load := 5, is_active_reviewer := true }
    (by decide) (by decide) rfl (by decide) (by decide)

/-- Per-criterion bounds for the Stage-1 rubric. -/
def stage1InRange (s : Stage1Score) : Prop :=
  (0 ≤ s.originality_score ∧ s.originality_score ≤ 15) ∧
  (0 ≤ s.clarity_score ∧ s.clarity_score ≤ 15) ∧
  (0 ≤ s.literature_review_score ∧ s.literature_review_score ≤ 15) ∧
  (0 ≤ s.methodology_score ∧ s.methodology_score ≤ 15) ∧
  (0 ≤ s.impact_score ∧ s.impact_score ≤ 15) ∧
  (0 ≤ s.publication_potential_score ∧ s.publication_potential_score ≤ 10) ∧
  (0 ≤ s.budget_appropriateness_score ∧ s.budget_appropriateness_score ≤ 10) ∧
  (0 ≤ s.timeline_practicality_score ∧ s.timeline_practicality_score ≤ 5)

instance (s : Stage1Score) : Decidable (stage1InRange s) := by
  unfold stage1InRange
  infer_instance

/-- A validated field stays within bounds whatever in-range fallback the
model supplies for an absent value. -/
theorem fieldOk_bounds (v : Option Int) (m fb : Int) (h : fieldOk v m = true)
    (hfb : 0 ≤ fb ∧ fb ≤ m) : 0 ≤ v.getD fb ∧ v.getD fb ≤ m := by
  cases v with
  | none => simpa using hfb
  | some x => simpa [fieldOk] using h

/-- C9: `total_score` is the derived sum of the eight criterion fields
for every `Stage1Score`, and data accepted by the serializer keeps every
criterion between 0 and its individual maximum (15/15/15/15/15/10/10/5),
whether the accepted payload creates a fresh record (absent fields
defaulting to 0) or updates an in-range existing one. -/
theorem stage1_score_invariants (s0 : Stage1Score) (aid : Nat) (d : Stage1ScoreData) :
    (∀ s : Stage1Score, s.total_score =
      s.originality_score + s.clarity_score + s.literature_review_score +
      s.methodology_score + s.impact_score + s.publication_potential_score +
      s.budget_appropriateness_score + s.timeline_practicality_score) ∧
    (stage1_validate d = true → stage1InRange (stage1_score_from_data aid d)) ∧
    (stage1InRange s0 → stage1_validate d = true →
      stage1InRange (stage1_apply_data s0 d)) := by
  refine ⟨fun s => rfl, ?_, ?_⟩
  · intro hv
    simp only [stage1_validate, Bool.and_eq_true] at hv
    obtain ⟨⟨⟨⟨⟨⟨⟨h1, h2⟩, h3⟩, h4⟩, h5⟩, h6⟩, h7⟩, h8⟩ := hv
    exact ⟨fieldOk_bounds _ 15 0 h1 (by norm_num),
           fieldOk_bounds _ 15 0 h2 (by norm_num),
           fieldOk_bounds _ 15 0 h3 (by norm_num),
           fieldOk_bounds _ 15 0 h4 (by norm_num),
           fieldOk_bounds _ 15 0 h5 (by norm_num),
           fieldOk_bounds _ 10 0 h6 (by norm_num),
           fieldOk_bounds _ 10 0 h7 (by norm_num),
           fieldOk_bounds _ 5 0 h8 (by norm_num)⟩
  · intro hs hv
    simp only [stage1_validate, Bool.and_eq_true] at hv
    obtain ⟨⟨⟨⟨⟨⟨⟨h1, h2⟩, h3⟩, h4⟩, h5⟩, h6⟩, h7⟩, h8⟩ := hv
    obtain ⟨g1, g2, g3, g4, g5, g6, g7, g8⟩ := hs
    exact ⟨fieldOk_bounds _ 15 _ h1 g1,
           fieldOk_bounds _ 15 _ h2 g2,
           fieldOk_bounds _ 15 _ h3 g3,
           fieldOk_bounds _ 15 _ h4 g4,
           fieldOk_bounds _ 15 _ h5 g5,
           fieldOk_bounds _ 10 _ h6 g6,
           fieldOk_bounds _ 10 _ h7 g7,
           fieldOk_bounds _ 5 _ h8 g8⟩

/-- A sparse Stage-1 payload: some fields present, some absent. -/
def payload0 : Stage1ScoreData :=
  { originality_score := some 12, clarity_score := none,
    literature_review_score := some 0, methodology_score := some 15,
    impact_score := none, publication_potential_score := some 7,
    budget_appropriateness_score := none, timeline_practicality_score := some 5,
    narrative_comments := "fine", is_draft := some true }

/-- C9 witness: the sparse payload validates and both the created and
the updated record stay in range. -/
theorem stage1_score_invariants_witness :
    (score86.total_score = 86) ∧
    stage1InRange (stage1_score_from_data 30 payload0) ∧
    stage1InRange (stage1_apply_data score86 payload0) := by
  have h := stage1_score_invariants score86 30 payload0
  exact ⟨by rw [h.1 score86]; decide, h.2.1 (by decide), h.2.2 (by decide) (by decide)⟩

/-- A score lookup returns a row keyed by the queried assignment. -/
theorem find_score_id (db : Db) (aid : Nat) (s0 : Stage1Score)
    (h : findStage1Score db aid = some s0) : s0.assignmentId = aid := by
  have h' : db.stage1_scores.find? (fun s => decide (s.assignmentId = aid)) = some s0 := h
  simpa using List.find?_some h'

/-- `stage1_apply_data` never moves a score to another assignment. -/
theorem stage1_apply_data_assignmentId (s : Stage1Score) (d : Stage1ScoreData) :
    (stage1_apply_data s d).assignmentId = s.assignmentId := rfl

/-- Replacing the row keyed `aid` in a score table is seen by a
subsequent keyed lookup. -/
theorem find_replace (l : List Stage1Score) (aid : Nat) (s0 snew : Stage1Score)
    (h : l.find? (fun s => decide (s.assignmentId = aid)) = some s0)
    (hnew : snew.assignmentId = aid) :
    (l.map (fun t => if t.assignmentId = aid then snew else t)).find?
      (fun s => decide (s.assignmentId = aid)) = some snew := by
  induction l with
  | nil => exact Option.noConfusion h
  | cons a rest ih =>
    by_cases ha : a.assignmentId = aid
    · rw [List.map_cons, if_pos ha, List.find?_cons_of_pos _ (by simp [hnew])]
    · rw [List.map_cons, if_neg ha, List.find?_cons_of_neg _ (by simp [ha])]
      rw [List.find?_cons_of_neg _ (by simp [ha])] at h
      exact ih h

/-- Evaluation of the stage-1 submission on a PENDING assignment with an
existing score row: validated data is applied in place, and the
assignment completes exactly when the saved score is not a draft. -/
theorem submit_score_stage1_update (db : Db) (a : ReviewAssignment)
    (d : Stage1ScoreData) (s0 : Stage1Score)
    (hp : a.status = AStatus.PENDING)
    (hv : stage1_validate d = true)
    (hf : findStage1Score db a.id = some s0) :
    submit_score_stage1 db a d =
      (Except.ok (stage1_apply_data s0 d),
       if (stage1_apply_data s0 d).is_draft = false then
         completeAssignment
           { db with stage1_scores := db.stage1_scores.map (fun t =>
               if t.assignmentId = a.id then stage1_apply_data s0 d else t) }
           a.id
       else
         { db with stage1_scores := db.stage1_scores.map (fun t =>
             if t.assignmentId = a.id then stage1_apply_data s0 d else t) }) := by
  have hpc : ¬(a.status = AStatus.COMPLETED) := by rw [hp]; simp
  have hid : s0.assignmentId = a.id := find_score_id db a.id s0 hf
  simp only [submit_score_stage1, hpc, if_false, hv, Bool.true_eq_false, hf,
    saveStage1Score, stage1_apply_data_assignmentId, hid,
    Option.isSome_some, if_true]

/-- C10: once a `ReviewAssignment` is COMPLETED, `submit_score` rejects
any further submission — stage 1 or stage 2 — with the already-completed
error before any write, so neither the attached record nor the
assignment changes; on a PENDING assignment a validated resubmission
updates the existing (draft) score row in place, adding no new row, and
the assignment flips to COMPLETED exactly when the submitted data leaves
the score non-draft. -/
theorem submit_score_completion_guard
    (db : Db) (a : ReviewAssignment) (d : Stage1ScoreData) (d2 : Stage2ReviewData)
    (s0 : Stage1Score) :
    (a.status = AStatus.COMPLETED →
      submit_score_stage1 db a d =
        (Except.error (Err.valueError ("Review already completed")), db) ∧
      submit_score_stage2 db a d2 =
        (Except.error (Err.valueError ("Review already completed")), db)) ∧
    (a.status = AStatus.PENDING → stage1_validate d = true →
      findStage1Score db a.id = some s0 →
      (submit_score_stage1 db a d).1 = Except.ok (stage1_apply_data s0 d) ∧
      (submit_score_stage1 db a d).2.stage1_scores =
        db.stage1_scores.map
          (fun t => if t.assignmentId = a.id then stage1_apply_data s0 d else t) ∧
      findStage1Score (submit_score_stage1 db a d).2 a.id =
        some (stage1_apply_data s0 d) ∧
      (submit_score_stage1 db a d).2.stage1_scores.length = db.stage1_scores.length ∧
      ((stage1_apply_data s0 d).is_draft = true →
        (submit_score_stage1 db a d).2.assignments = db.assignments) ∧
      ((stage1_apply_data s0 d).is_draft = false →
        (submit_score_stage1 db a d).2.assignments =
          db.assignments.map
            (fun x => if x.id = a.id then { x with status := AStatus.COMPLETED } else x))) := by
  constructor
  · intro hc
    constructor
    · simp only [submit_score_stage1, hc, if_true]
    · simp only [submit_score_stage2, hc, if_true]
  · intro hp hv hf
    have heval := submit_score_stage1_update db a d s0 hp hv hf
    have hfind : findStage1Score
        { db with stage1_scores := db.stage1_scores.map (fun t =>
            if t.assignmentId = a.id then stage1_apply_data s0 d else t) }
        a.id = some (stage1_apply_data s0 d) := by
      exact find_replace db.stage1_scores a.id s0 (stage1_apply_data s0 d) hf
        (by rw [stage1_apply_data_assignmentId, find_score_id db a.id s0 hf])
    by_cases hd : (stage1_apply_data s0 d).is_draft = false
    · rw [heval, if_pos hd]
      refine ⟨rfl, rfl, ?_, by simp [completeAssignment], ?_, fun _ => rfl⟩
      · exact hfind
      · intro ht
        rw [ht] at hd
        exact Bool.noConfusion hd
    · rw [heval, if_neg hd]
      refine ⟨rfl, rfl, hfind, by simp, fun _ => rfl, ?_⟩
      intro hfalse
      exact absurd hfalse hd

/-- A pending stage-1 assignment awaiting its final submission. -/
def c10Assignment : ReviewAssignment :=
  { id := 60, proposalId := 6, reviewerId := 7, stage := 1,
    status := AStatus.PENDING, deadline := 50 }

/-- The draft score currently attached to assignment 60. -/
def c10Score : Stage1Score :=
  { assignmentId := 60, originality_score := 10, clarity_score := 10,
    literature_review_score := 10, methodology_score := 10, impact_score := 10,
    publication_potential_score := 5, budget_appropriateness_score := 5,
    timeline_practicality_score := 3, narrative_comments := "draft", is_draft := true }

/-- State around assignment 60: the pending assignment and its draft. -/
def c10Db : Db :=
  { assignments := [c10Assignment],
    stage1_scores := [c10Score],
    stage2_reviews := [], stage1_decisions := [], final_decisions := [],
    profiles := [], nextAssignmentId := 61 }

/-- A complete, in-range, non-draft resubmission payload. -/
def finalPayload : Stage1ScoreData :=
  { originality_score := some 14, clarity_score := some 13,
    literature_review_score := some 12, methodology_score := some 11,
    impact_score := some 15, publication_potential_score := some 9,
    budget_appropriateness_score := some 8, timeline_practicality_score := some 4,
    narrative_comments := "final", is_draft := some false }

/-- A minimal stage-2 payload for the completed-guard conjunct. -/
def dummyStage2 : Stage2ReviewData :=
  { concerns_addressed := Concerns.YES, revised_recommendation := RecChoice.ACCEPT,
    revised_score := none, comments := "", is_draft := none }

/-- C10 witness: a completed assignment rejects resubmission unchanged;
the pending one takes the non-draft update in place and completes. -/
theorem submit_score_completion_guard_witness :
    submit_score_stage1 c10Db { c10Assignment with status := AStatus.COMPLETED }
        finalPayload =
      (Except.error (Err.valueError ("Review already completed")), c10Db) ∧
    (submit_score_stage1 c10Db c10Assignment finalPayload).1 =
      Except.ok (stage1_apply_data c10Score finalPayload) ∧
    (submit_score_stage1 c10Db c10Assignment finalPayload).2.assignments =
      [{ c10Assignment with status := AStatus.COMPLETED }] := by
  have h1 := (submit_score_completion_guard c10Db
    { c10Assignment with status := AStatus.COMPLETED } finalPayload dummyStage2 c10Score).1 rfl
  have h2 := (submit_score_completion_guard c10Db c10Assignment finalPayload
    dummyStage2 c10Score).2 rfl (by decide) rfl
  refine ⟨h1.1, h2.1, ?_⟩
  rw [h2.2.2.2.2.2 (by decide)]
  decide

end CTRG
